import Mathlib

/-!
# Verification of the todoAPI server specification

The repository is a single-user task list exposed over HTTP, persisted as a
JSON document on disk.  The files under version control here contain only the
process entry point (`main.go`) and the HTTP tests (`server_test.go`); the
task-list package (`github.com/Nelwhix/todo`) and the router/handler layer
(`newMux` and friends) are referenced by those files but their source is not
present.  All definitions below that embed those missing parts are therefore
modelled from the specification (and constrained by the assertions of
`server_test.go`), as their doc comments state.
-/

namespace TodoAPI

/-- Modelled from the spec: the `Task` data model (§3) of the missing
`github.com/Nelwhix/todo` package.  A task has free-form text, a completion
flag defaulting to false, and a creation timestamp (modelled as a `Nat`).
The 1-based `position` is not a stored field: the spec requires it to be
re-derived from the element's index in the backing sequence. -/
structure Task where
  task : String
  done : Bool
  createdAt : Nat
deriving Repr, DecidableEq

/-- A `TaskList` is the ordered backing sequence of tasks; insertion order is
the canonical order and determines position numbering (§3). -/
abbrev TaskList := List Task

/-- Modelled from the spec: `Add(description)` of the missing `todo` package
(§4.1).  Appends a new Task with `done=false`, `createdAt=now`, at position
`length + 1`; fails (returns `none`) only if the description is empty. -/
def TaskList.add (l : TaskList) (description : String) (now : Nat) :
    Option TaskList :=
  if description = "" then none
  else some (l ++ [{ task := description, done := false, createdAt := now }])

/-- Sets the `done` flag of the element at 0-based index `i`, leaving every
other element untouched (helper for `TaskList.complete`). -/
def setDone : Nat → TaskList → TaskList
  | _, [] => []
  | 0, t :: ts => { t with done := true } :: ts
  | i + 1, t :: ts => t :: setDone i ts

/-- Modelled from the spec: `Complete(position)` of the missing `todo`
package (§4.1).  Locates the task whose current 1-based position is `k` and
sets `done := true`; fails with not-found if `k` is outside `[1, length]`. -/
def TaskList.complete (l : TaskList) (k : Nat) : Option TaskList :=
  if 1 ≤ k ∧ k ≤ l.length then some (setDone (k - 1) l) else none

/-- Modelled from the spec: `Delete(position)` of the missing `todo` package
(§4.1).  Removes the task at 1-based position `k`; every later task shifts
down by one, implicitly, because positions are derived from slice order.
Fails with not-found if `k` is outside `[1, length]`. -/
def TaskList.delete (l : TaskList) (k : Nat) : Option TaskList :=
  if 1 ≤ k ∧ k ≤ l.length then some (l.take (k - 1) ++ l.drop k) else none

/-- Modelled from the spec: `Get(position)` of the missing `todo` package
(§4.1).  Returns the single task at 1-based position `k`, or not-found. -/
def TaskList.getPos (l : TaskList) (k : Nat) : Option Task :=
  if 1 ≤ k ∧ k ≤ l.length then l[k - 1]? else none

/-- Folds a sequence of `Add` calls over a list: each pair is a description
together with the creation time supplied for that call.  Fails as soon as one
`Add` fails. -/
def TaskList.addAll (l : TaskList) : List (String × Nat) → Option TaskList
  | [] => some l
  | (d, now) :: ps =>
    match l.add d now with
    | some l2 => l2.addAll ps
    | none => none

/-! ## The Store: JSON persistence -/

/-- A JSON document, as far as the persisted task file needs. -/
inductive Json where
  | str (s : String)
  | num (n : Nat)
  | jbool (b : Bool)
  | arr (xs : List Json)
  | obj (fields : List (String × Json))

/-- Modelled from the spec: serialization of one task to JSON, for the
missing `Save` of the Store (§4.2, §6 persisted file layout). -/
def encodeTask (t : Task) : Json :=
  .obj [("task", .str t.task), ("done", .jbool t.done),
        ("createdAt", .num t.createdAt)]

/-- Looks a key up in a JSON object's field list. -/
def jsonLookup (key : String) : List (String × Json) → Option Json
  | [] => none
  | (k, v) :: fs => if k = key then some v else jsonLookup key fs

/-- Modelled from the spec: deserialization of one task, for the missing
`Load` of the Store (§4.2). -/
def decodeTask : Json → Option Task
  | .obj fields =>
    match jsonLookup "task" fields, jsonLookup "done" fields,
        jsonLookup "createdAt" fields with
    | some (.str s), some (.jbool b), some (.num n) =>
      some { task := s, done := b, createdAt := n }
    | _, _, _ => none
  | _ => none

/-- Deserializes a JSON array's elements into tasks, failing if any element
fails to decode. -/
def decodeTasks : List Json → Option TaskList
  | [] => some []
  | j :: js =>
    match decodeTask j, decodeTasks js with
    | some t, some ts => some (t :: ts)
    | _, _ => none

/-- Modelled from the spec: the persisted file layout is a single JSON
document containing the serialized ordered task sequence (§6). -/
def encodeList (l : TaskList) : Json := .arr (l.map encodeTask)

/-- Modelled from the spec: deserialization of the whole file document. -/
def decodeList : Json → Option TaskList
  | .arr xs => decodeTasks xs
  | _ => none

/-- The observable states of the task file: it may be absent, present but
empty, present with a well-formed JSON document, or present with text that is
not valid JSON at all. -/
inductive FileData where
  | missing
  | empty
  | content (j : Json)
  | malformed

/-- The failure `Load` can signal. -/
inductive LoadError where
  | parseError
deriving Repr, DecidableEq

/-- Modelled from the spec: `Load(path)` of the missing Store (§4.2).  If the
file does not exist or is empty it returns an empty TaskList, not an error;
if the file holds text that does not parse as a task list, it fails with a
parse error. -/
def Load : FileData → Except LoadError TaskList
  | .missing => .ok []
  | .empty => .ok []
  | .content j =>
    match decodeList j with
    | some l => .ok l
    | none => .error .parseError
  | .malformed => .error .parseError

/-- Modelled from the spec: `Save(path, list)` of the missing Store (§4.2).
Serializes the TaskList to JSON and overwrites the file. -/
def Save (l : TaskList) : FileData := .content (encodeList l)

/-! ## The router/handler layer -/

/-- The HTTP methods the router dispatches on (§4.3). -/
inductive Method where
  | get
  | post
  | patch
  | delete
  | otherMethod

/-- The routes the mux distinguishes (§4.3, §6): the root path `/`, the
collection `/todo`, a single item `/todo/{n}` with its parsed 1-based
position, or any other, unmatched, path. -/
inductive Route where
  | root
  | collection
  | item (n : Nat)
  | unknown

/-- The decoded request body of a collection POST: either a well-formed
`\x7b"task": <text>\x7d` document, or bytes that fail JSON decoding. -/
inductive ReqBody where
  | jsonTask (task : String)
  | badJson

/-- An HTTP request, as far as the handler layer inspects it: method, parsed
route, presence of the `complete` query flag, and the optional body. -/
structure Request where
  method : Method
  route : Route
  completeFlag : Bool := false
  body : Option ReqBody := none

/-- Modelled from the spec: the JSON envelope
`\x7b"results": [...], "date": <unix timestamp>, "total_results": <int>\x7d`
returned for list and item reads (§6); `server_test.go` decodes it with the
same three fields. -/
structure todoResponse where
  results : TaskList
  date : Nat
  totalResults : Nat
deriving Repr, DecidableEq

/-- An HTTP response body: plain text, a JSON envelope, or nothing. -/
inductive RespBody where
  | text (s : String)
  | json (env : todoResponse)
  | noBody
deriving Repr, DecidableEq

/-- An HTTP response, as far as the tests observe it: status code, the
Content-Type header, and the body. -/
structure Response where
  status : Nat
  contentType : String
  body : RespBody
deriving Repr, DecidableEq

/-- `strContains s pat` says the string `pat` occurs somewhere in `s`. -/
def strContains (s pat : String) : Prop := ∃ a b, s = a ++ pat ++ b

/-- Modelled from the spec: the plain-text greeting for root GET (§4.3 item
7, §6 route table). -/
def greetingResponse : Response :=
  { status := 200, contentType := "text/plain",
    body := .text "There\x27s an API here" }

/-- Modelled from the spec and `server_test.go`: the not-found reply — 404
with a `text/plain` Content-Type and the plain-text body `Not Found`
followed by a newline (§4.3 item 8, §6 route table, and the
`undefined routes return 404` test case). -/
def notFoundResponse : Response :=
  { status := 404, contentType := "text/plain; charset=utf-8",
    body := .text "Not Found\n" }

/-- Modelled from the spec: validation and body-decode failures reply 400
(§4.3 failure semantics, §7). -/
def badRequestResponse : Response :=
  { status := 400, contentType := "text/plain; charset=utf-8",
    body := .text "Bad Request\n" }

/-- Modelled from the spec: storage I/O failures reply 500 (§4.3 failure
semantics, §7). -/
def serverErrorResponse : Response :=
  { status := 500, contentType := "text/plain; charset=utf-8",
    body := .text "Internal Server Error\n" }

/-- Modelled from the spec: successful PATCH and DELETE reply 204 with no
body (§4.3 items 5 and 6, §6 route table). -/
def noContentResponse : Response :=
  { status := 204, contentType := "", body := .noBody }

/-- Modelled from the spec: a JSON reply wrapping `results` in the envelope,
with `date` the current time and `total_results` the result count (§6). -/
def jsonReply (status : Nat) (results : TaskList) (now : Nat) : Response :=
  { status := status, contentType := "application/json",
    body := .json { results := results, date := now,
                    totalResults := results.length } }

/-- Modelled from the spec: the request-scoped control flow of the
handler/router layer (§2, §4.3).  The root path and unmatched paths are not
API traffic and do not touch the store; collection and item requests load
the TaskList from the file, invoke the matching operation, persist the
mutated list when the operation mutates, and translate the outcome into a
status code and body.  Returns the response together with the new file
state. -/
def handle (now : Nat) (file : FileData) (req : Request) :
    Response × FileData :=
  match req.route with
  | .root =>
    match req.method with
    | .get => (greetingResponse, file)
    | _ => (notFoundResponse, file)
  | .unknown => (notFoundResponse, file)
  | .collection =>
    match Load file with
    | .error _ => (serverErrorResponse, file)
    | .ok l =>
      match req.method with
      | .get => (jsonReply 200 l now, file)
      | .post =>
        match req.body with
        | some (.jsonTask d) =>
          match l.add d now with
          | some l2 => (jsonReply 201 l2 now, Save l2)
          | none => (badRequestResponse, file)
        | _ => (badRequestResponse, file)
      | _ => (notFoundResponse, file)
  | .item n =>
    match Load file with
    | .error _ => (serverErrorResponse, file)
    | .ok l =>
      match req.method with
      | .get =>
        match l.getPos n with
        | some t => (jsonReply 200 [t] now, file)
        | none => (notFoundResponse, file)
      | .patch =>
        if req.completeFlag then
          match l.complete n with
          | some l2 => (noContentResponse, Save l2)
          | none => (notFoundResponse, file)
        else (badRequestResponse, file)
      | .delete =>
        match l.delete n with
        | some l2 => (noContentResponse, Save l2)
        | none => (notFoundResponse, file)
      | _ => (notFoundResponse, file)

/-! ## Requests and scenario states used by the tests -/

/-- A collection POST carrying the task text `d`, as `setupAPI` sends it. -/
def postTask (d : String) : Request :=
  { method := .post, route := .collection, body := some (.jsonTask d) }

/-- A collection GET, `GET /todo`. -/
def getAll : Request := { method := .get, route := .collection }

/-- An item GET, `GET /todo/{n}`. -/
def getItem (n : Nat) : Request := { method := .get, route := .item n }

/-- An item DELETE, `DELETE /todo/{n}`. -/
def deleteItem (n : Nat) : Request := { method := .delete, route := .item n }

/-- An item PATCH with the `complete` query flag,
`PATCH /todo/\x7bn\x7d?complete`. -/
def patchComplete (n : Nat) : Request :=
  { method := .patch, route := .item n, completeFlag := true }

/-- A root GET, `GET /`. -/
def rootGet : Request := { method := .get, route := .root }

/-- A collection POST whose body fails JSON decoding. -/
def postBadJson : Request :=
  { method := .post, route := .collection, body := some .badJson }

/-- A collection POST with no body at all. -/
def postNoBody : Request := { method := .post, route := .collection }

/-- The `total_results` field of a JSON envelope body, when there is one. -/
def RespBody.totalResults? : RespBody → Option Nat
  | .json env => some env.totalResults
  | _ => none

/-- The number of items under `results` of a JSON envelope body. -/
def RespBody.resultCount? : RespBody → Option Nat
  | .json env => some env.results.length
  | _ => none

/-- The task text of the result at 0-based index `i` of a JSON envelope. -/
def RespBody.taskAt? : RespBody → Nat → Option String
  | .json env, i => (env.results[i]?).map Task.task
  | _, _ => none

/-- The done flag of the result at 0-based index `i` of a JSON envelope. -/
def RespBody.doneAt? : RespBody → Nat → Option Bool
  | .json env, i => (env.results[i]?).map Task.done
  | _, _ => none

/-- The state after the first request of `setupAPI`: starting from the empty
temp file, POST task `Task Number 1.` (creation time modelled as 5). -/
def afterPost1 : Response × FileData :=
  handle 5 .empty (postTask "Task Number 1.")

/-- The state after the second request of `setupAPI`: POST task
`Task Number 2.` (creation time modelled as 6). -/
def afterPost2 : Response × FileData :=
  handle 6 afterPost1.2 (postTask "Task Number 2.")

/-- The collection listing the tests fetch after `setupAPI`. -/
def listingAfterSetup : Response := (handle 7 afterPost2.2 getAll).1

/-- The state after `TestDelete` sends `DELETE /todo/1` to the set-up
server. -/
def afterDelete : Response × FileData :=
  handle 8 afterPost2.2 (deleteItem 1)

/-- The collection listing `TestDelete` fetches after the delete. -/
def listingAfterDelete : Response := (handle 9 afterDelete.2 getAll).1

/-- The state after `TestComplete` sends `PATCH /todo/1?complete` to the
set-up server. -/
def afterPatch : Response × FileData :=
  handle 8 afterPost2.2 (patchComplete 1)

/-- The collection listing `TestComplete` fetches after the patch. -/
def listingAfterPatch : Response := (handle 9 afterPatch.2 getAll).1

/-! ## Helper lemmas -/

theorem decodeTask_encodeTask (t : Task) : decodeTask (encodeTask t) = some t := rfl

theorem decodeTasks_map_encodeTask (l : TaskList) :
    decodeTasks (l.map encodeTask) = some l := by
  induction l with
  | nil => rfl
  | cons t ts ih => simp [decodeTasks, decodeTask_encodeTask, ih]

theorem addAll_eq_of_nonempty (l : TaskList) (ps : List (String × Nat))
    (h : ∀ p ∈ ps, p.1 ≠ "") :
    TaskList.addAll l ps =
      some (l ++ ps.map fun p => { task := p.1, done := false, createdAt := p.2 }) := by
  induction ps generalizing l with
  | nil => simp [TaskList.addAll]
  | cons p ps ih =>
    have hp : p.1 ≠ "" := h p (List.mem_cons_self p ps)
    have hrest : ∀ q ∈ ps, q.1 ≠ "" := fun q hq => h q (List.mem_cons_of_mem p hq)
    simp only [TaskList.addAll, TaskList.add, if_neg hp, ih _ hrest,
      List.map_cons, List.append_assoc, List.singleton_append]

theorem setDone_length (i : Nat) (l : TaskList) :
    (setDone i l).length = l.length := by
  induction l generalizing i with
  | nil => cases i <;> rfl
  | cons t ts ih =>
    cases i with
    | zero => simp [setDone]
    | succ j => simp [setDone, ih]

theorem setDone_getElem_ne (i j : Nat) (l : TaskList) (h : j ≠ i) :
    (setDone i l)[j]? = l[j]? := by
  induction l generalizing i j with
  | nil => cases i <;> rfl
  | cons t ts ih =>
    cases i with
    | zero =>
      cases j with
      | zero => exact absurd rfl h
      | succ j2 => simp [setDone]
    | succ i2 =>
      cases j with
      | zero => simp [setDone]
      | succ j2 =>
        simp only [setDone, List.getElem?_cons_succ]
        exact ih i2 j2 (fun hc => h (by omega))

theorem setDone_getElem_eq (i : Nat) (l : TaskList) :
    (setDone i l)[i]? = (l[i]?).map fun t => { t with done := true } := by
  induction l generalizing i with
  | nil => cases i <;> rfl
  | cons t ts ih =>
    cases i with
    | zero => simp [setDone]
    | succ j => simpa [setDone] using ih j

/-! ## The claims -/

/-- C1: starting from an empty task list, POSTing task `Task Number 1.`
returns 201, then POSTing `Task Number 2.` returns 201, and a subsequent
GET /todo returns 200 with an envelope whose total_results equals 2 and
whose first result has the task text `Task Number 1.`. -/
theorem claim_C1_setup_scenario :
    afterPost1.1.status = 201 ∧
    afterPost2.1.status = 201 ∧
    listingAfterSetup.status = 200 ∧
    listingAfterSetup.body.totalResults? = some 2 ∧
    listingAfterSetup.body.taskAt? 0 = some "Task Number 1." :=
  ⟨rfl, rfl, rfl, rfl, rfl⟩

/-- C5: `Save` followed by `Load` reproduces the same task sequence, field
for field — JSON serialization of the task list round-trips losslessly, so
tasks persisted by one request are visible to later requests that reload
the file. -/
theorem claim_C5_save_load_roundtrip (l : TaskList) : Load (Save l) = .ok l := by
  simp [Load, Save, encodeList, decodeList, decodeTasks_map_encodeTask]

/-- C6: `Load` on a missing file or an empty file returns an empty TaskList
rather than an error, and `Load` fails with a parse error exactly when the
file exists and its contents do not parse as a task list. -/
theorem claim_C6_load_bootstrap :
    Load .missing = .ok [] ∧
    Load .empty = .ok [] ∧
    ∀ f : FileData, Load f = .error .parseError ↔
      (f = .malformed ∨ ∃ j, f = .content j ∧ decodeList j = none) := by
  refine ⟨rfl, rfl, fun f => ?_⟩
  cases f with
  | missing => simp [Load]
  | empty => simp [Load]
  | malformed => simp [Load]
  | content j =>
    cases hd : decodeList j with
    | none => simp [Load, hd]
    | some l => simp [Load, hd]

/-- C9: GET on the root path always returns 200 with a text/plain body
containing the greeting, whatever the state of the task file. -/
theorem claim_C9_root_greeting (f : FileData) (now : Nat) :
    (handle now f rootGet).1.status = 200 ∧
    strContains (handle now f rootGet).1.contentType "text/plain" ∧
    ∃ s, (handle now f rootGet).1.body = .text s ∧
      strContains s "There\x27s an API here" := by
  refine ⟨rfl, ⟨"", "", rfl⟩, "There\x27s an API here", rfl, "", "", rfl⟩

theorem getPos_isSome (m : TaskList) (k : Nat) :
    (m.getPos k).isSome = true ↔ 1 ≤ k ∧ k ≤ m.length := by
  unfold TaskList.getPos
  split
  · rename_i hk
    have hlt : k - 1 < m.length := by omega
    simp [List.getElem?_eq_getElem hlt, hk]
  · rename_i hk
    simp [hk]

/-- C2: folding any sequence of `Add` calls over the empty list yields the
tasks in insertion order, the task at position N being exactly the Nth one
added; positions are valid exactly on `[1, length]` for every list, because
they are re-derived from the backing order, so the contiguity invariant is
preserved by every add and delete. -/
theorem claim_C2_positions (ps : List (String × Nat)) (h : ∀ p ∈ ps, p.1 ≠ "") :
    ∃ l : TaskList, TaskList.addAll [] ps = some l ∧
      l.map Task.task = ps.map Prod.fst ∧
      (∀ k, 1 ≤ k → k ≤ l.length →
        l.getPos k = (ps[k - 1]?).map fun p =>
          { task := p.1, done := false, createdAt := p.2 }) ∧
      (∀ m : TaskList, ∀ k, (m.getPos k).isSome = true ↔ 1 ≤ k ∧ k ≤ m.length) ∧
      (∀ m m' : TaskList, ∀ d now, TaskList.add m d now = some m' →
        m'.length = m.length + 1) ∧
      (∀ m m' : TaskList, ∀ j, TaskList.delete m j = some m' →
        m'.length = m.length - 1) := by
  refine ⟨ps.map fun p => { task := p.1, done := false, createdAt := p.2 },
    ?_, ?_, ?_, getPos_isSome, ?_, ?_⟩
  · simpa using addAll_eq_of_nonempty [] ps h
  · rw [List.map_map]; rfl
  · intro k hk1 hk2
    rw [TaskList.getPos, if_pos ⟨hk1, hk2⟩, List.getElem?_map]
  · intro m m' d now hadd
    rw [TaskList.add] at hadd
    split at hadd
    · simp at hadd
    · injection hadd with h2
      rw [← h2]
      simp
  · intro m m' j hdel
    rw [TaskList.delete] at hdel
    split at hdel
    · rename_i hg
      injection hdel with h2
      rw [← h2]
      simp
      omega
    · simp at hdel

theorem claim_C2_positions_witness :
    ∃ l : TaskList,
      TaskList.addAll [] [("Task Number 1.", 5), ("Task Number 2.", 6)] = some l ∧
      l.map Task.task = [("Task Number 1.", 5), ("Task Number 2.", 6)].map Prod.fst ∧
      (∀ k, 1 ≤ k → k ≤ l.length →
        l.getPos k = ([("Task Number 1.", 5), ("Task Number 2.", 6)][k - 1]?).map fun p =>
          { task := p.1, done := false, createdAt := p.2 }) ∧
      (∀ m : TaskList, ∀ k, (m.getPos k).isSome = true ↔ 1 ≤ k ∧ k ≤ m.length) ∧
      (∀ m m' : TaskList, ∀ d now, TaskList.add m d now = some m' →
        m'.length = m.length + 1) ∧
      (∀ m m' : TaskList, ∀ j, TaskList.delete m j = some m' →
        m'.length = m.length - 1) :=
  claim_C2_positions [("Task Number 1.", 5), ("Task Number 2.", 6)] (by decide)

/-- C3: deleting the in-range position k yields one task fewer, every task
before k unchanged and every task after k shifted down one position, with no
gaps; concretely, after the two-task setup, DELETE /todo/1 replies 204 and
the next GET /todo lists exactly one result, the former second task, now
first. -/
theorem claim_C3_delete_shifts (l : TaskList) (k : Nat)
    (h1 : 1 ≤ k) (h2 : k ≤ l.length) :
    (∃ l', l.delete k = some l' ∧
      l'.length = l.length - 1 ∧
      (∀ i, i < k - 1 → l'[i]? = l[i]?) ∧
      (∀ i, k - 1 ≤ i → l'[i]? = l[i + 1]?)) ∧
    afterDelete.1.status = 204 ∧
    afterDelete.1.body = .noBody ∧
    listingAfterDelete.status = 200 ∧
    listingAfterDelete.body.resultCount? = some 1 ∧
    listingAfterDelete.body.taskAt? 0 = some "Task Number 2." := by
  refine ⟨⟨l.take (k - 1) ++ l.drop k, ?_, ?_, ?_, ?_⟩, rfl, rfl, rfl, rfl, rfl⟩
  · rw [TaskList.delete, if_pos ⟨h1, h2⟩]
  · simp
    omega
  · intro i hi
    have hlt : i < (l.take (k - 1)).length := by
      simp
      omega
    rw [List.getElem?_append_left hlt, List.getElem?_take_of_lt hi]
  · intro i hge
    have hlen : (l.take (k - 1)).length ≤ i := by
      simp
      omega
    rw [List.getElem?_append_right hlen, List.getElem?_drop]
    congr 1
    simp
    omega

theorem claim_C3_delete_shifts_witness :
    (∃ l', TaskList.delete [{ task := "Task Number 1.", done := false, createdAt := 5 },
        { task := "Task Number 2.", done := false, createdAt := 6 }] 1 = some l' ∧
      l'.length = ([{ task := "Task Number 1.", done := false, createdAt := 5 },
        { task := "Task Number 2.", done := false, createdAt := 6 }] : TaskList).length - 1 ∧
      (∀ i, i < 1 - 1 → l'[i]? =
        ([{ task := "Task Number 1.", done := false, createdAt := 5 },
          { task := "Task Number 2.", done := false, createdAt := 6 }] : TaskList)[i]?) ∧
      (∀ i, 1 - 1 ≤ i → l'[i]? =
        ([{ task := "Task Number 1.", done := false, createdAt := 5 },
          { task := "Task Number 2.", done := false, createdAt := 6 }] : TaskList)[i + 1]?)) ∧
    afterDelete.1.status = 204 ∧
    afterDelete.1.body = .noBody ∧
    listingAfterDelete.status = 200 ∧
    listingAfterDelete.body.resultCount? = some 1 ∧
    listingAfterDelete.body.taskAt? 0 = some "Task Number 2." :=
  claim_C3_delete_shifts
    [{ task := "Task Number 1.", done := false, createdAt := 5 },
     { task := "Task Number 2.", done := false, createdAt := 6 }] 1
    (by decide) (by decide)

/-- C4: completing the in-range position k sets the done flag of exactly the
task at k, leaving its text and creation time and every other task
untouched, in the same order; concretely, after the two-task setup,
PATCH /todo/1?complete replies 204 with no body and the next GET /todo shows
the first item done and the second not done. -/
theorem claim_C4_complete_frame (l : TaskList) (k : Nat)
    (h1 : 1 ≤ k) (h2 : k ≤ l.length) :
    (∃ l', l.complete k = some l' ∧
      l'.length = l.length ∧
      (∀ i, i ≠ k - 1 → l'[i]? = l[i]?) ∧
      l'[k - 1]? = (l[k - 1]?).map fun t => { t with done := true }) ∧
    afterPatch.1.status = 204 ∧
    afterPatch.1.body = .noBody ∧
    listingAfterPatch.status = 200 ∧
    listingAfterPatch.body.doneAt? 0 = some true ∧
    listingAfterPatch.body.doneAt? 1 = some false := by
  refine ⟨⟨setDone (k - 1) l, ?_, setDone_length _ _,
    fun i hi => setDone_getElem_ne _ _ _ hi, setDone_getElem_eq _ _⟩,
    rfl, rfl, rfl, rfl, rfl⟩
  rw [TaskList.complete, if_pos ⟨h1, h2⟩]

theorem claim_C4_complete_frame_witness :
    (∃ l', TaskList.complete [{ task := "Task Number 1.", done := false, createdAt := 5 },
        { task := "Task Number 2.", done := false, createdAt := 6 }] 1 = some l' ∧
      l'.length = ([{ task := "Task Number 1.", done := false, createdAt := 5 },
        { task := "Task Number 2.", done := false, createdAt := 6 }] : TaskList).length ∧
      (∀ i, i ≠ 1 - 1 → l'[i]? =
        ([{ task := "Task Number 1.", done := false, createdAt := 5 },
          { task := "Task Number 2.", done := false, createdAt := 6 }] : TaskList)[i]?) ∧
      l'[1 - 1]? = (([{ task := "Task Number 1.", done := false, createdAt := 5 },
          { task := "Task Number 2.", done := false, createdAt := 6 }] : TaskList)[1 - 1]?).map
        fun t => { t with done := true }) ∧
    afterPatch.1.status = 204 ∧
    afterPatch.1.body = .noBody ∧
    listingAfterPatch.status = 200 ∧
    listingAfterPatch.body.doneAt? 0 = some true ∧
    listingAfterPatch.body.doneAt? 1 = some false :=
  claim_C4_complete_frame
    [{ task := "Task Number 1.", done := false, createdAt := 5 },
     { task := "Task Number 2.", done := false, createdAt := 6 }] 1
    (by decide) (by decide)

/-- C7: every item-level request — GET, PATCH?complete, or DELETE on
/todo/\x7bn\x7d — whose position is outside `[1, length]` of the loaded list
is answered with status 404; in particular GET /todo/500 on the two-item
setup replies 404. -/
theorem claim_C7_out_of_range_404 (f : FileData) (l : TaskList) (n now : Nat)
    (hf : Load f = .ok l) (hn : n < 1 ∨ l.length < n) :
    (handle now f (getItem n)).1.status = 404 ∧
    (handle now f (patchComplete n)).1.status = 404 ∧
    (handle now f (deleteItem n)).1.status = 404 ∧
    (handle 7 afterPost2.2 (getItem 500)).1.status = 404 := by
  have hguard : ¬(1 ≤ n ∧ n ≤ l.length) := by
    rcases hn with h | h <;> omega
  refine ⟨?_, ?_, ?_, rfl⟩
  · simp [handle, getItem, hf, TaskList.getPos, hguard]
    rfl
  · simp [handle, patchComplete, hf, TaskList.complete, hguard]
    rfl
  · simp [handle, deleteItem, hf, TaskList.delete, hguard]
    rfl

theorem claim_C7_out_of_range_404_witness :
    (handle 0 .empty (getItem 1)).1.status = 404 ∧
    (handle 0 .empty (patchComplete 1)).1.status = 404 ∧
    (handle 0 .empty (deleteItem 1)).1.status = 404 ∧
    (handle 7 afterPost2.2 (getItem 500)).1.status = 404 :=
  claim_C7_out_of_range_404 .empty [] 1 0 rfl (Or.inr (by decide))

/-- C8: `Add` appends a task with done=false and createdAt the current time,
reachable at position length+1, and fails exactly when the description is
empty; over HTTP, an undecodable POST body or an empty task text replies
400, while a well-formed POST of a nonempty task replies 201. -/
theorem claim_C8_add_validation (l : TaskList) (d : String) (now : Nat)
    (f : FileData) (lf : TaskList) (hd : d ≠ "") (hf : Load f = .ok lf) :
    TaskList.add l d now =
      some (l ++ [{ task := d, done := false, createdAt := now }]) ∧
    TaskList.getPos (l ++ [{ task := d, done := false, createdAt := now }])
        (l.length + 1) =
      some { task := d, done := false, createdAt := now } ∧
    (∀ d', TaskList.add l d' now = none ↔ d' = "") ∧
    (handle now f postBadJson).1.status = 400 ∧
    (handle now f postNoBody).1.status = 400 ∧
    (handle now f (postTask "")).1.status = 400 ∧
    (handle now f (postTask d)).1.status = 201 := by
  refine ⟨?_, ?_, ?_, ?_, ?_, ?_, ?_⟩
  · rw [TaskList.add, if_neg hd]
  · have hb : 1 ≤ l.length + 1 ∧
        l.length + 1 ≤ (l ++ [{ task := d, done := false, createdAt := now }] : TaskList).length := by
      simp
    rw [TaskList.getPos, if_pos hb]
    have h1 : l.length + 1 - 1 = l.length := by omega
    rw [h1, List.getElem?_append_right (Nat.le_refl _)]
    simp
  · intro d'
    constructor
    · intro hnone
      by_contra hne
      rw [TaskList.add, if_neg hne] at hnone
      exact Option.noConfusion hnone
    · intro he
      simp [TaskList.add, he]
  · simp [handle, postBadJson, hf]
    rfl
  · simp [handle, postNoBody, hf]
    rfl
  · simp [handle, postTask, hf, TaskList.add]
    rfl
  · simp [handle, postTask, hf, TaskList.add, hd]
    rfl

theorem claim_C8_add_validation_witness :
    TaskList.add [] "x" 0 =
      some (([] : TaskList) ++ [{ task := "x", done := false, createdAt := 0 }]) ∧
    TaskList.getPos (([] : TaskList) ++ [{ task := "x", done := false, createdAt := 0 }])
        (([] : TaskList).length + 1) =
      some { task := "x", done := false, createdAt := 0 } ∧
    (∀ d', TaskList.add [] d' 0 = none ↔ d' = "") ∧
    (handle 0 .empty postBadJson).1.status = 400 ∧
    (handle 0 .empty postNoBody).1.status = 400 ∧
    (handle 0 .empty (postTask "")).1.status = 400 ∧
    (handle 0 .empty (postTask "x")).1.status = 201 :=
  claim_C8_add_validation [] "x" 0 .empty [] (by decide) rfl

/-- C10: an item-level GET with an out-of-range position is answered with
exactly the same response as a request for a completely unknown route: 404,
a Content-Type containing text/plain, and the body `Not Found` followed by
a newline — not a JSON envelope; in particular GET /todo/500 on the
two-item setup gets that response. -/
theorem claim_C10_notfound_shape (f : FileData) (l : TaskList) (n now : Nat)
    (hf : Load f = .ok l) (hn : l.length < n) :
    (handle now f (getItem n)).1 = notFoundResponse ∧
    (∀ req : Request, req.route = .unknown →
      (handle now f req).1 = notFoundResponse) ∧
    notFoundResponse.status = 404 ∧
    strContains notFoundResponse.contentType "text/plain" ∧
    notFoundResponse.body = .text "Not Found\n" ∧
    (handle 7 afterPost2.2 (getItem 500)).1 = notFoundResponse := by
  have hguard : ¬(1 ≤ n ∧ n ≤ l.length) := by omega
  refine ⟨?_, ?_, rfl, ⟨"", "; charset=utf-8", rfl⟩, rfl, rfl⟩
  · simp [handle, getItem, hf, TaskList.getPos, hguard]
  · intro req hr
    simp [handle, hr]

theorem claim_C10_notfound_shape_witness :
    (handle 0 .empty (getItem 1)).1 = notFoundResponse ∧
    (∀ req : Request, req.route = .unknown →
      (handle 0 .empty req).1 = notFoundResponse) ∧
    notFoundResponse.status = 404 ∧
    strContains notFoundResponse.contentType "text/plain" ∧
    notFoundResponse.body = .text "Not Found\n" ∧
    (handle 7 afterPost2.2 (getItem 500)).1 = notFoundResponse :=
  claim_C10_notfound_shape .empty [] 1 0 rfl (by decide)

end TodoAPI
